import Mathlib

/-!
Verification of the ElasticSwap SDK math core (`src/utils/MathLib.js`).

The library computes on bignumber.js values with the library's default
configuration (the repository never calls `BigNumber.config`):
addition, subtraction and multiplication are exact; division and square
root are rounded to `DECIMAL_PLACES = 20` decimal places with
`ROUNDING_MODE = ROUND_HALF_UP` (ties away from zero); `.dp(n, ROUND_DOWN)`
truncates towards zero at `n` decimal places.

Values are embedded as rationals.  Division by zero yields `0` in the
embedding (bignumber.js would produce `NaN`/`Infinity`; no claim below
exercises that corner).
-/

set_option maxRecDepth 40000

attribute [local semireducible] Rat.mul Rat.add Rat.sub Rat.inv Rat.ofScientific

/-- Truncation `.dp(n, ROUND_DOWN)` of bignumber.js: round towards zero at `n`
decimal places. -/
def bnDp (n : ℕ) (q : ℚ) : ℚ :=
  if q < 0 then -((Rat.floor ((-q) * 10 ^ n) : ℚ) / 10 ^ n)
  else (Rat.floor (q * 10 ^ n) : ℚ) / 10 ^ n

/-- Rounding to `n` decimal places with `ROUND_HALF_UP` (nearest, ties away
from zero), the bignumber.js default rounding mode. -/
def bnHalfUp (n : ℕ) (q : ℚ) : ℚ :=
  if q < 0 then -((Rat.floor ((-q) * 10 ^ n + 1 / 2) : ℚ) / 10 ^ n)
  else (Rat.floor (q * 10 ^ n + 1 / 2) : ℚ) / 10 ^ n

/-- Division `dividedBy` of bignumber.js under the default configuration: the exact
quotient rounded half-up to 20 decimal places. -/
def bnDiv (a b : ℚ) : ℚ := bnHalfUp 20 (a / b)

/-- Decimal digit count of a natural number, first argument is fuel. -/
def nlen : ℕ → ℕ → ℕ
  | 0, _ => 0
  | f + 1, n => if n = 0 then 0 else nlen f (n / 10) + 1

/-- Bit-by-bit integer square root: tries bits from position `i - 1`
downwards, keeping the largest `r` with `r * r ≤ n`. -/
def isqrtGo (n : ℕ) : ℕ → ℕ → ℕ
  | 0, r => r
  | i + 1, r =>
    let r2 := r + 2 ^ i
    isqrtGo n i (if r2 * r2 ≤ n then r2 else r)

/-- Integer square root `⌊√n⌋`; `4 * nlen n n` bits are enough since
`n < 10 ^ nlen n n ≤ 2 ^ (4 * nlen n n)`. -/
def isqrt (n : ℕ) : ℕ := isqrtGo n (4 * nlen n n) 0

/-- Square root `sqrt` of bignumber.js under the default configuration: the real square
root rounded half-up to 20 decimal places.  `√x · 10²⁰ = √(x · 10⁴⁰)`
rounds to `k = ⌊√(x·10⁴⁰)⌋` when `√(x·10⁴⁰) < k + 1/2`, i.e. when
`x · 10⁴⁰ < k² + k + 1/4`, and to `k + 1` otherwise. -/
def bnSqrt (q : ℚ) : ℚ :=
  if q ≤ 0 then 0
  else
    let x : ℚ := q * 10 ^ 40
    let k : ℕ := isqrt (Rat.floor x).toNat
    let r : ℚ := if x < (k : ℚ) ^ 2 + (k : ℚ) + 1 / 4 then (k : ℚ) else (k : ℚ) + 1
    r / 10 ^ 20

/-- Decimal digit character codes of a natural number, most significant
first; first argument is fuel (`'0'` is code 48). -/
def natDigitCodes : ℕ → ℕ → List ℕ
  | 0, _ => []
  | f + 1, n => if n < 10 then [48 + n] else natDigitCodes f (n / 10) ++ [48 + n % 10]

/-- Decimal digit character codes of a natural number. -/
def natCodes (n : ℕ) : List ℕ := natDigitCodes (n + 1) n

/-- Remove trailing zero digits: `(n, k)` represents `n / 10 ^ k`. -/
def stripTrailingZeros : ℕ → ℕ → ℕ × ℕ
  | n, 0 => (n, 0)
  | n, k + 1 => if n % 10 = 0 then stripTrailingZeros (n / 10) k else (n, k + 1)

/-- Digit codes of `n` left-padded with zeros to width `k`. -/
def padCodes (n k : ℕ) : List ℕ :=
  List.replicate (k - (natCodes n).length) 48 ++ natCodes n

/-- Character codes of the plain decimal notation of a nonnegative value
with at most 20 decimal places (every value produced by the library paths
modelled here has at most 20 decimal places).  46 is the code of the
decimal point.  bignumber.js switches to exponential notation outside
`[1e-7, 1e21)`; that regime is not modelled and no theorem below
evaluates the comparison there. -/
def bnPosCodes (q : ℚ) : List ℕ :=
  let z := q * 10 ^ 20
  if z.den = 1 then
    let p := stripTrailingZeros z.num.toNat 20
    if p.2 = 0 then natCodes p.1
    else natCodes (p.1 / 10 ^ p.2) ++ 46 :: padCodes (p.1 % 10 ^ p.2) p.2
  else []

/-- Character codes of `valueOf`/`toString` of a bignumber.js value
(45 is the code of the minus sign). -/
def bnStrCodes (q : ℚ) : List ℕ :=
  if q < 0 then 45 :: bnPosCodes (-q) else bnPosCodes q

/-- Lexicographic order on code-unit lists, as JavaScript compares
strings (a proper prefix is smaller). -/
def codesLt : List ℕ → List ℕ → Bool
  | [], [] => false
  | [], _ :: _ => true
  | _ :: _, [] => false
  | a :: as, b :: bs => if a < b then true else if b < a then false else codesLt as bs

/-- The JavaScript expression `a > b` applied to two BigNumber objects:
both are converted to primitives via `valueOf`, which returns a string,
and the two strings are compared lexicographically.  (The source uses this
raw `>` at one place instead of `.isGreaterThan`.) -/
def jsGt (a b : ℚ) : Bool := codesLt (bnStrCodes b) (bnStrCodes a)

/-- Constant `BASIS_POINTS` of MathLib.js. -/
def BASIS_POINTS : ℚ := 10000

/-- The `MathLib:` error identifiers thrown by MathLib.js. -/
inductive MathErr where
  | insufficientBaseQty
  | insufficientBaseTokenQty
  | insufficientBaseQtyDesired
  | insufficientChangeInDecay
  | insufficientDecay
  | insufficientLiquidity
  | insufficientQty
  | insufficientQuoteQty
  | insufficientQuoteQtyDesired
  | insufficientQuoteTokenQty
  | insufficientTokenQty
  | noQuoteDecay
  deriving DecidableEq, Repr

instance {ε α : Type} [DecidableEq ε] [DecidableEq α] : DecidableEq (Except ε α) :=
  fun x y =>
    match x, y with
    | .ok a, .ok b =>
      if h : a = b then isTrue (by rw [h]) else isFalse (fun hc => h (by injection hc))
    | .error a, .error b =>
      if h : a = b then isTrue (by rw [h]) else isFalse (fun hc => h (by injection hc))
    | .ok _, .error _ => isFalse (fun hc => Except.noConfusion hc)
    | .error _, .ok _ => isFalse (fun hc => Except.noConfusion hc)

/-- The `internalBalances` record of the exchange's internal accounting. -/
structure InternalBalances where
  baseTokenReserveQty : ℚ
  quoteTokenReserveQty : ℚ
  kLast : ℚ
  deriving DecidableEq, Repr

/-- Result record of `calculateAddLiquidityQuantities`. -/
structure TokenQtys where
  baseTokenQty : ℚ
  quoteTokenQty : ℚ
  liquidityTokenQty : ℚ
  liquidityTokenFeeQty : ℚ
  deriving DecidableEq, Repr

/-- Result record of `calculateAddTokenPairLiquidityQuantities` (also used
for the outputs of the decay-resolution step). -/
structure PairQtys where
  baseTokenQty : ℚ
  quoteTokenQty : ℚ
  liquidityTokenQty : ℚ
  deriving DecidableEq, Repr

/-- Result record of `calculateAddBaseTokenLiquidityQuantities`. -/
structure BaseAndLp where
  baseTokenQty : ℚ
  liquidityTokenQty : ℚ
  deriving DecidableEq, Repr

/-- Result record of `calculateAddQuoteTokenLiquidityQuantities`. -/
structure QuoteAndLp where
  quoteTokenQty : ℚ
  liquidityTokenQty : ℚ
  deriving DecidableEq, Repr

/-- Model of `calculateQtyToReturnAfterFees` of MathLib.js. -/
def calculateQtyToReturnAfterFees
    (tokenASwapQty tokenAReserveQty tokenBReserveQty liquidityFeeInBasisPoints : ℚ) : ℚ :=
  let differenceInBP := BASIS_POINTS - liquidityFeeInBasisPoints
  let tokenASwapQtyLessFee := bnDp 18 (tokenASwapQty * differenceInBP)
  let numerator := bnDp 18 (tokenASwapQtyLessFee * tokenBReserveQty)
  let denominator := bnDp 18 (tokenAReserveQty * BASIS_POINTS) + tokenASwapQtyLessFee
  bnDp 0 (bnDiv numerator denominator)

/-- Model of `calculateLiquidityTokenQtyForSingleAssetEntry` of MathLib.js
(the gamma formula). -/
def calculateLiquidityTokenQtyForSingleAssetEntry
    (totalSupplyOfLiquidityTokens tokenQtyAToAdd internalTokenAReserveQty
     tokenBDecayChange tokenBDecay : ℚ) : ℚ :=
  let aTokenDiv := bnDiv tokenQtyAToAdd internalTokenAReserveQty
  let aAndBDecayMul := aTokenDiv * tokenBDecayChange
  let byTokenBDecay := bnDiv aAndBDecayMul tokenBDecay
  let altWGamma := bnDp 18 (bnDiv byTokenBDecay 2)
  bnDp 0 (bnDiv (totalSupplyOfLiquidityTokens * altWGamma) (1 - altWGamma))

/-- Model of `calculateLiquidityTokenQtyForDoubleAssetEntry` of MathLib.js. -/
def calculateLiquidityTokenQtyForDoubleAssetEntry
    (totalSupplyOfLiquidityTokens quoteTokenQty quoteTokenReserveBalance : ℚ) : ℚ :=
  let numerator := bnDp 18 (quoteTokenQty * totalSupplyOfLiquidityTokens)
  bnDp 18 (bnDiv numerator quoteTokenReserveBalance)

/-- Model of `calculateLiquidityTokenFees` of MathLib.js (LP fee minted to the DAO
for the growth in `k`). -/
def calculateLiquidityTokenFees
    (totalSupplyOfLiquidityTokens : ℚ) (internalBalances : InternalBalances) : ℚ :=
  let rootK :=
    bnSqrt (internalBalances.baseTokenReserveQty * internalBalances.quoteTokenReserveQty)
  let rootKLast := bnSqrt internalBalances.kLast
  if rootKLast < rootK then
    bnDiv (totalSupplyOfLiquidityTokens * (rootK - rootKLast)) (rootK * 5 + rootKLast)
  else 0

/-- Model of `calculateQty` of MathLib.js. -/
def calculateQty (tokenAQty tokenAReserveQty tokenBReserveQty : ℚ) : Except MathErr ℚ :=
  if tokenAQty ≤ 0 then .error .insufficientQty
  else if tokenAReserveQty ≤ 0 ∨ tokenBReserveQty ≤ 0 then .error .insufficientLiquidity
  else .ok (bnDp 18 (bnDiv (tokenAQty * tokenBReserveQty) tokenAReserveQty))

/-- Model of `isSufficientDecayPresent` of MathLib.js. -/
def isSufficientDecayPresent
    (baseTokenReserveQty : ℚ) (internalBalances : InternalBalances) : Bool :=
  let baseTokenReserveDifference :=
    |baseTokenReserveQty - internalBalances.baseTokenReserveQty|
  let internalBalanceRat :=
    bnDiv internalBalances.baseTokenReserveQty internalBalances.quoteTokenReserveQty
  decide (1 < bnDiv baseTokenReserveDifference internalBalanceRat)

/-- Model of `calculateAddBaseTokenLiquidityQuantities` of MathLib.js (add base
tokens to resolve quote-token decay after a rebase down; it does not
modify the internal balances). -/
def calculateAddBaseTokenLiquidityQuantities
    (baseTokenQtyDesired baseTokenQtyMin baseTokenReserveQty
     totalSupplyOfLiquidityTokens : ℚ) (internalBalances : InternalBalances) :
    Except MathErr BaseAndLp :=
  let maxBaseTokenQty := internalBalances.baseTokenReserveQty - baseTokenReserveQty
  if maxBaseTokenQty ≤ baseTokenQtyMin then .error .insufficientDecay
  else
    let baseTokenQty :=
      if maxBaseTokenQty < baseTokenQtyDesired then maxBaseTokenQty else baseTokenQtyDesired
    let internalQuoteToBaseTokenRat :=
      bnDiv internalBalances.quoteTokenReserveQty internalBalances.baseTokenReserveQty
    let quoteTokenQtyDecayChange := baseTokenQty * internalQuoteToBaseTokenRat
    if quoteTokenQtyDecayChange ≤ 0 then .error .insufficientChangeInDecay
    else
      let quoteTokenDecay := maxBaseTokenQty * internalQuoteToBaseTokenRat
      if quoteTokenDecay ≤ 0 then .error .noQuoteDecay
      else
        .ok ⟨baseTokenQty,
          calculateLiquidityTokenQtyForSingleAssetEntry totalSupplyOfLiquidityTokens
            baseTokenQty internalBalances.baseTokenReserveQty
            quoteTokenQtyDecayChange quoteTokenDecay⟩

/-- Model of `calculateAddQuoteTokenLiquidityQuantities` of MathLib.js (add quote
tokens to resolve base-token decay after a rebase up).  The clamp of the
desired quantity against `maxQuoteTokenQty` uses the raw JavaScript `>` on
two BigNumber objects (`jsGt`), not `.isGreaterThan`.  The function
updates the caller's internal balances; the updated record is returned. -/
def calculateAddQuoteTokenLiquidityQuantities
    (quoteTokenQtyDesired quoteTokenQtyMin baseTokenReserveQty
     totalSupplyOfLiquidityTokens : ℚ) (internalBalances : InternalBalances) :
    Except MathErr (QuoteAndLp × InternalBalances) :=
  let baseTokenDecay := baseTokenReserveQty - internalBalances.baseTokenReserveQty
  let internalBaseTokenToQuoteTokenRat :=
    bnDiv internalBalances.baseTokenReserveQty internalBalances.quoteTokenReserveQty
  let maxQuoteTokenQty := bnDiv baseTokenDecay internalBaseTokenToQuoteTokenRat
  if maxQuoteTokenQty ≤ quoteTokenQtyMin then .error .insufficientDecay
  else
    let quoteTokenQty :=
      if jsGt quoteTokenQtyDesired maxQuoteTokenQty then maxQuoteTokenQty
      else quoteTokenQtyDesired
    let baseTokenQtyDecayChange := quoteTokenQty * internalBaseTokenToQuoteTokenRat
    if baseTokenQtyDecayChange ≤ 0 then .error .insufficientDecay
    else
      let updated : InternalBalances :=
        ⟨internalBalances.baseTokenReserveQty + baseTokenQtyDecayChange,
         internalBalances.quoteTokenReserveQty + quoteTokenQty,
         internalBalances.kLast⟩
      .ok (⟨quoteTokenQty,
        calculateLiquidityTokenQtyForSingleAssetEntry totalSupplyOfLiquidityTokens
          quoteTokenQty updated.quoteTokenReserveQty baseTokenQtyDecayChange
          baseTokenDecay⟩, updated)

/-- Model of `calculateAddTokenPairLiquidityQuantities` of MathLib.js (double asset
entry).  The function updates the caller's internal balances; the updated
record is returned. -/
def calculateAddTokenPairLiquidityQuantities
    (baseTokenQtyDesired quoteTokenQtyDesired baseTokenQtyMin quoteTokenQtyMin
     quoteTokenReserveQty totalSupplyOfLiquidityTokens : ℚ)
    (internalBalances : InternalBalances) :
    Except MathErr (PairQtys × InternalBalances) :=
  match calculateQty baseTokenQtyDesired internalBalances.baseTokenReserveQty
      internalBalances.quoteTokenReserveQty with
  | .error e => .error e
  | .ok requiredQuoteTokenQty =>
    let next : ℚ × ℚ → Except MathErr (PairQtys × InternalBalances) := fun p =>
      let liquidityTokenQty :=
        calculateLiquidityTokenQtyForDoubleAssetEntry totalSupplyOfLiquidityTokens
          p.2 quoteTokenReserveQty
      .ok (⟨p.1, p.2, liquidityTokenQty⟩,
        ⟨p.1 + internalBalances.baseTokenReserveQty,
         p.2 + internalBalances.quoteTokenReserveQty,
         internalBalances.kLast⟩)
    if requiredQuoteTokenQty ≤ quoteTokenQtyDesired then
      if requiredQuoteTokenQty < quoteTokenQtyMin then .error .insufficientQuoteQty
      else next (baseTokenQtyDesired, requiredQuoteTokenQty)
    else
      match calculateQty quoteTokenQtyDesired internalBalances.quoteTokenReserveQty
          internalBalances.baseTokenReserveQty with
      | .error e => .error e
      | .ok requiredBaseTokenQty =>
        if requiredBaseTokenQty < baseTokenQtyMin then .error .insufficientBaseQty
        else next (requiredBaseTokenQty, quoteTokenQtyDesired)

/-- Model of `calculateBaseTokenQty` of MathLib.js (base tokens received for a
quote-token swap).  The function updates the caller's internal balances;
the updated record is returned together with the output quantity. -/
def calculateBaseTokenQty
    (quoteTokenQty baseTokenQtyMin baseTokenReserveQty liquidityFeeInBasisPoints : ℚ)
    (internalBalances : InternalBalances) : Except MathErr (ℚ × InternalBalances) :=
  if baseTokenReserveQty < 0 ∧ internalBalances.baseTokenReserveQty < 0 then
    .error .insufficientBaseTokenQty
  else
    let baseTokenQty :=
      if baseTokenReserveQty < internalBalances.baseTokenReserveQty then
        let pricingRat :=
          bnDiv internalBalances.baseTokenReserveQty internalBalances.quoteTokenReserveQty
        let impliedQuoteTokenQty := bnDiv baseTokenReserveQty pricingRat
        calculateQtyToReturnAfterFees quoteTokenQty impliedQuoteTokenQty
          baseTokenReserveQty liquidityFeeInBasisPoints
      else
        calculateQtyToReturnAfterFees quoteTokenQty
          internalBalances.quoteTokenReserveQty internalBalances.baseTokenReserveQty
          liquidityFeeInBasisPoints
    if baseTokenQty ≤ baseTokenQtyMin then .error .insufficientBaseTokenQty
    else
      .ok (baseTokenQty,
        ⟨internalBalances.baseTokenReserveQty - baseTokenQty,
         internalBalances.quoteTokenReserveQty + quoteTokenQty,
         internalBalances.kLast⟩)

/-- Model of `calculateQuoteTokenQty` of MathLib.js (quote tokens received for a
base-token swap).  The function updates the caller's internal balances;
the updated record is returned together with the output quantity. -/
def calculateQuoteTokenQty
    (baseTokenQty quoteTokenQtyMin liquidityFeeInBasisPoints : ℚ)
    (internalBalances : InternalBalances) : Except MathErr (ℚ × InternalBalances) :=
  if baseTokenQty ≤ 0 ∧ quoteTokenQtyMin ≤ 0 then .error .insufficientTokenQty
  else
    let quoteTokenQty :=
      calculateQtyToReturnAfterFees baseTokenQty
        internalBalances.baseTokenReserveQty internalBalances.quoteTokenReserveQty
        liquidityFeeInBasisPoints
    if quoteTokenQty ≤ quoteTokenQtyMin then .error .insufficientQuoteTokenQty
    else
      .ok (quoteTokenQty,
        ⟨internalBalances.baseTokenReserveQty + baseTokenQty,
         internalBalances.quoteTokenReserveQty - quoteTokenQty,
         internalBalances.kLast⟩)

/-- The decay-resolution step of `calculateAddLiquidityQuantities`
(lines choosing between the quote-add and the base-add handler),
factored out: returns `(baseTokenQtyFromDecay, quoteTokenQtyFromDecay,
liquidityTokenQtyFromDecay)` together with the internal balances as they
stand after the step (the quote-add handler updates them; the base-add
handler does not). -/
def decayResolutionOutputs
    (baseTokenQtyDesired quoteTokenQtyDesired baseTokenReserveQty
     totalSupplyOfLiquidityTokens : ℚ) (internalBalances : InternalBalances) :
    Except MathErr (PairQtys × InternalBalances) :=
  if internalBalances.baseTokenReserveQty < baseTokenReserveQty then
    match calculateAddQuoteTokenLiquidityQuantities quoteTokenQtyDesired 0
        baseTokenReserveQty totalSupplyOfLiquidityTokens internalBalances with
    | .error e => .error e
    | .ok (r, updated) => .ok (⟨0, r.quoteTokenQty, r.liquidityTokenQty⟩, updated)
  else
    match calculateAddBaseTokenLiquidityQuantities baseTokenQtyDesired 0
        baseTokenReserveQty totalSupplyOfLiquidityTokens internalBalances with
    | .error e => .error e
    | .ok r => .ok (⟨r.baseTokenQty, 0, r.liquidityTokenQty⟩, internalBalances)

/-- Model of `calculateAddLiquidityQuantities` of MathLib.js (the add-liquidity
orchestrator).  The returned internal balances reflect the updates the
call performs on the caller's record. -/
def calculateAddLiquidityQuantities
    (baseTokenQtyDesired quoteTokenQtyDesired baseTokenQtyMin quoteTokenQtyMin
     baseTokenReserveQty quoteTokenReserveQty totalSupplyOfLiquidityTokens : ℚ)
    (internalBalances : InternalBalances) :
    Except MathErr (TokenQtys × InternalBalances) :=
  if 0 < totalSupplyOfLiquidityTokens then
    let liquidityTokenFeeQty :=
      calculateLiquidityTokenFees totalSupplyOfLiquidityTokens internalBalances
    let adjustedSupply := liquidityTokenFeeQty + totalSupplyOfLiquidityTokens
    if isSufficientDecayPresent baseTokenReserveQty internalBalances then
      match decayResolutionOutputs baseTokenQtyDesired quoteTokenQtyDesired
          baseTokenReserveQty adjustedSupply internalBalances with
      | .error e => .error e
      | .ok (fromDecay, ibAfterDecay) =>
        if fromDecay.quoteTokenQty < quoteTokenQtyDesired ∧
            fromDecay.baseTokenQty < baseTokenQtyDesired then
          match calculateAddTokenPairLiquidityQuantities
              (baseTokenQtyDesired - fromDecay.baseTokenQty)
              (quoteTokenQtyDesired - fromDecay.quoteTokenQty) 0 0
              (quoteTokenReserveQty + fromDecay.quoteTokenQty)
              (adjustedSupply + fromDecay.liquidityTokenQty) ibAfterDecay with
          | .error e => .error e
          | .ok (pair, ibAfterPair) =>
            let baseTokenQty := pair.baseTokenQty + fromDecay.baseTokenQty
            let quoteTokenQty := pair.quoteTokenQty + fromDecay.quoteTokenQty
            let liquidityTokenQty := pair.liquidityTokenQty + fromDecay.liquidityTokenQty
            if baseTokenQty < baseTokenQtyMin then .error .insufficientBaseQty
            else if quoteTokenQty < quoteTokenQtyMin then .error .insufficientQuoteQty
            else
              .ok (⟨baseTokenQty, quoteTokenQty, liquidityTokenQty, liquidityTokenFeeQty⟩,
                ibAfterPair)
        else
          .ok (⟨fromDecay.baseTokenQty, fromDecay.quoteTokenQty,
            fromDecay.liquidityTokenQty, liquidityTokenFeeQty⟩, ibAfterDecay)
    else
      match calculateAddTokenPairLiquidityQuantities baseTokenQtyDesired
          quoteTokenQtyDesired baseTokenQtyMin quoteTokenQtyMin quoteTokenReserveQty
          adjustedSupply internalBalances with
      | .error e => .error e
      | .ok (pair, ibAfterPair) =>
        .ok (⟨pair.baseTokenQty, pair.quoteTokenQty, pair.liquidityTokenQty,
          liquidityTokenFeeQty⟩, ibAfterPair)
  else
    if baseTokenQtyDesired ≤ 0 then .error .insufficientBaseQtyDesired
    else if quoteTokenQtyDesired ≤ 0 then .error .insufficientQuoteQtyDesired
    else
      .ok (⟨baseTokenQtyDesired, quoteTokenQtyDesired,
        bnSqrt (baseTokenQtyDesired * quoteTokenQtyDesired), 0⟩,
        ⟨internalBalances.baseTokenReserveQty + baseTokenQtyDesired,
         internalBalances.quoteTokenReserveQty + quoteTokenQtyDesired,
         internalBalances.kLast⟩)

/-- The swap-output formula exactly as the specification states it: the
intermediate products truncated at 18 decimal places and the final
quotient — taken as an exact rational — truncated to an integer. -/
def qtyOutClaimFormula (inQty inReserve outReserve feeBP : ℚ) : ℚ :=
  let inQtyLessFee := bnDp 18 (inQty * (BASIS_POINTS - feeBP))
  bnDp 0 (bnDp 18 (inQtyLessFee * outReserve) /
    (bnDp 18 (inReserve * BASIS_POINTS) + inQtyLessFee))

/-- The single-asset-entry LP formula exactly as the specification states
it: `γ = (Δa / Aʹ / 2) · (ΔbChange / bDecay)` on exact rationals, `γ`
truncated at 18 decimal places, and `LPsupply · γ / (1 − γ)` truncated to
an integer. -/
def gammaLpClaimFormula (lpSupply da aPrime dbChange bDecay : ℚ) : ℚ :=
  let g := bnDp 18 (da / aPrime / 2 * (dbChange / bDecay))
  bnDp 0 (lpSupply * g / (1 - g))

/-- The single-asset-entry LP formula with every division carried at the
library's 20-decimal-place half-up precision, in the source's operation
order: `γ = dp18(((Δa / Aʹ) · ΔbChange / bDecay) / 2)` and
`ΔLP = dp0(LPsupply · γ / (1 − γ))`. -/
def gammaLpRoundedFormula (lpSupply da aPrime dbChange bDecay : ℚ) : ℚ :=
  let g := bnDp 18 (bnDiv (bnDiv (bnDiv da aPrime * dbChange) bDecay) 2)
  bnDp 0 (bnDiv (lpSupply * g) (1 - g))

theorem ratFloor_eq (q : ℚ) : Rat.floor q = ⌊q⌋ := by
  rw [Rat.floor_def', Rat.floor_def]

theorem bnDp_nonneg (n : ℕ) (q : ℚ) (h : 0 ≤ q) : 0 ≤ bnDp n q := by
  rw [bnDp, if_neg (not_lt.2 h), ratFloor_eq]
  have hfl : (0 : ℤ) ≤ ⌊q * 10 ^ n⌋ := Int.floor_nonneg.2 (by positivity)
  exact div_nonneg (by exact_mod_cast hfl) (by positivity)

theorem bnDp_le_self (n : ℕ) (q : ℚ) (h : 0 ≤ q) : bnDp n q ≤ q := by
  rw [bnDp, if_neg (not_lt.2 h), ratFloor_eq]
  rw [div_le_iff (by positivity)]
  exact Int.floor_le _

theorem bnDp_zero_val (n : ℕ) : bnDp n 0 = 0 := by
  simp [bnDp, ratFloor_eq]

/-- Pulling an inner floor out of a floored division by a power of ten. -/
theorem floor_cast_div_pow (z : ℚ) (n : ℕ) :
    ⌊((⌊z⌋ : ℤ) : ℚ) / 10 ^ n⌋ = ⌊z / 10 ^ n⌋ := by
  apply le_antisymm
  · exact Int.floor_le_floor ((div_le_div_right (by positivity)).2 (Int.floor_le z))
  · rw [Int.le_floor, le_div_iff (by positivity)]
    have h2 : (⌊z / 10 ^ n⌋ : ℚ) * 10 ^ n ≤ z := by
      rw [← le_div_iff (by positivity)]
      exact Int.floor_le _
    have h3 : ((⌊z / 10 ^ n⌋ * 10 ^ n : ℤ) : ℚ) ≤ z := by push_cast; exact h2
    calc ((⌊z / 10 ^ n⌋ : ℤ) : ℚ) * 10 ^ n
        = ((⌊z / 10 ^ n⌋ * 10 ^ n : ℤ) : ℚ) := by push_cast; ring
      _ ≤ ((⌊z⌋ : ℤ) : ℚ) := by exact_mod_cast Int.le_floor.2 h3

/-- Truncating the 20-dp half-up rounding of a nonnegative quotient to an
integer yields `⌊x + 5·10⁻²¹⌋`: the extra `5·10⁻²¹` is exactly the
half-unit of the library's 20-decimal-place division precision. -/
theorem bnDp_zero_bnHalfUp (x : ℚ) (hx : 0 ≤ x) :
    bnDp 0 (bnHalfUp 20 x) = ((⌊x + 5 / 10 ^ 21⌋ : ℤ) : ℚ) := by
  have h1 : bnHalfUp 20 x = ((⌊x * 10 ^ 20 + 1 / 2⌋ : ℤ) : ℚ) / 10 ^ 20 := by
    rw [bnHalfUp, if_neg (not_lt.2 hx), ratFloor_eq]
  have hfl : (0 : ℤ) ≤ ⌊x * 10 ^ 20 + 1 / 2⌋ := Int.floor_nonneg.2 (by positivity)
  have h2 : 0 ≤ bnHalfUp 20 x := by
    rw [h1]
    exact div_nonneg (by exact_mod_cast hfl) (by positivity)
  rw [bnDp, if_neg (not_lt.2 h2), ratFloor_eq, h1, pow_zero, mul_one, div_one,
    floor_cast_div_pow]
  congr 2
  field_simp
  ring

/-- Claim C1, counterexample: on integer wei-scale inputs — swap 1 with
input reserve `2·10¹⁶`, output reserve `2·10²⁰`, fee 9999 bp — the code
returns 1 while the claim's formula (exact quotient, truncated) yields 0:
the exact quotient `2·10²⁰ / (2·10²⁰ + 1)` lies within `5·10⁻²¹` below 1,
so the library's 20-decimal-place half-up division rounds it up to 1
before the final truncation. -/
theorem calculateQtyToReturnAfterFees_not_exact_floor :
    calculateQtyToReturnAfterFees 1 (2 * 10 ^ 16) (2 * 10 ^ 20) 9999 = 1 ∧
    qtyOutClaimFormula 1 (2 * 10 ^ 16) (2 * 10 ^ 20) 9999 = 0 :=
  ⟨by decide, by decide⟩

/-- Claim C1, amended: `calculateQtyToReturnAfterFees` computes the
specified numerator and denominator, but the quotient is rounded half-up
at the library's 20-decimal-place division precision before the final
truncation; for nonnegative numerator and positive denominator the result
is therefore `⌊q + 5·10⁻²¹⌋` of the exact quotient `q`, which agrees with
`⌊q⌋` except when `q` lies within `5·10⁻²¹` below an integer. -/
theorem calculateQtyToReturnAfterFees_floor_shift (a ra rb f : ℚ)
    (ha : 0 ≤ a) (hrb : 0 ≤ rb) (hf : f ≤ BASIS_POINTS)
    (hden : 0 < bnDp 18 (ra * BASIS_POINTS) + bnDp 18 (a * (BASIS_POINTS - f))) :
    calculateQtyToReturnAfterFees a ra rb f =
      ((⌊bnDp 18 (bnDp 18 (a * (BASIS_POINTS - f)) * rb) /
        (bnDp 18 (ra * BASIS_POINTS) + bnDp 18 (a * (BASIS_POINTS - f))) +
        5 / 10 ^ 21⌋ : ℤ) : ℚ) := by
  have hlf0 : 0 ≤ bnDp 18 (a * (BASIS_POINTS - f)) :=
    bnDp_nonneg _ _ (mul_nonneg ha (by linarith))
  have hnum0 : 0 ≤ bnDp 18 (bnDp 18 (a * (BASIS_POINTS - f)) * rb) :=
    bnDp_nonneg _ _ (mul_nonneg hlf0 hrb)
  simp only [calculateQtyToReturnAfterFees, bnDiv]
  exact bnDp_zero_bnHalfUp _ (div_nonneg hnum0 hden.le)

theorem calculateQtyToReturnAfterFees_floor_shift_witness :
    ((0 : ℚ) < bnDp 18 ((100 : ℚ) * BASIS_POINTS) + bnDp 18 (50 * (BASIS_POINTS - 30))) ∧
    calculateQtyToReturnAfterFees 50 100 5000 30 =
      ((⌊bnDp 18 (bnDp 18 ((50 : ℚ) * (BASIS_POINTS - 30)) * 5000) /
        (bnDp 18 ((100 : ℚ) * BASIS_POINTS) + bnDp 18 ((50 : ℚ) * (BASIS_POINTS - 30))) +
        5 / 10 ^ 21⌋ : ℤ) : ℚ) :=
  ⟨by decide,
    calculateQtyToReturnAfterFees_floor_shift 50 100 5000 30 (by decide) (by decide)
      (by decide) (by decide)⟩

/-- Claim C3, counterexample: with internal balances
`(5000000000000000000049, 10²²)` and the external base reserve exceeding
the internal one by exactly one ratio-unit, the exact quotient
`|α − α′| / (α′/β′)` equals 1 — so the claim says the function returns
`false` — yet the code returns `true`: the 20-decimal-place half-up
rounding of the ratio `α′/β′ = 0.5000000000000000000049` drops to `0.5`,
and the subsequent rounded division pushes the computed quotient to
`1.00000000000000000001 > 1`. -/
theorem isSufficientDecayPresent_at_threshold :
    isSufficientDecayPresent
      (5000000000000000000049 + 5000000000000000000049 / 10 ^ 22)
      ⟨5000000000000000000049, 10 ^ 22, 0⟩ = true ∧
    |(5000000000000000000049 + 5000000000000000000049 / 10 ^ 22 : ℚ) -
        5000000000000000000049| / ((5000000000000000000049 : ℚ) / 10 ^ 22) = 1 :=
  ⟨by decide, by decide⟩

/-- Claim C3, amended: `isSufficientDecayPresent` returns `true` iff the
computed quotient is strictly greater than 1, where the computed quotient
is `|externalBase − internalBase|` divided by the computed ratio
`internalBase / internalQuote` and both divisions carry the library's
20-decimal-place half-up rounding; when the computed quotient equals
exactly 1 it returns `false`, but inputs whose exact quotient is 1 can
land on either side of the threshold. -/
theorem isSufficientDecayPresent_spec (ext : ℚ) (ib : InternalBalances) :
    isSufficientDecayPresent ext ib = true ↔
      1 < bnDiv |ext - ib.baseTokenReserveQty|
        (bnDiv ib.baseTokenReserveQty ib.quoteTokenReserveQty) := by
  simp [isSufficientDecayPresent]

/-- Claim C4: the clamp of the desired quote quantity against
`maxQuoteTokenQty` uses the raw JavaScript `>` on two BigNumber objects,
which compares their `toString` values lexicographically.  At
`quoteTokenQtyDesired = 9` with `maxQuoteTokenQty = 10` (external base
1002 against internal balances `(1000, 5000)`, so `baseDecay = 2`,
`Ω = 0.2`, `maxQuote = 10`) the string `"9"` compares greater than
`"10"`, the branch wrongly clamps, and the user is charged 10 quote
tokens instead of `min(9, 10) = 9`.  The spec's own concrete instance
(desired 3000, `maxQuote` 2500) happens to agree with `min` because
`"3000" > "2500"` also holds lexicographically. -/
theorem calculateAddQuoteTokenLiquidityQuantities_clamp_bug :
    calculateAddQuoteTokenLiquidityQuantities 9 0 1002 5000 ⟨1000, 5000, 0⟩ =
      .ok (⟨10, 4⟩, ⟨1002, 5010, 0⟩) ∧
    min (9 : ℚ) (bnDiv (1002 - 1000) (bnDiv 1000 5000)) = 9 ∧
    calculateAddQuoteTokenLiquidityQuantities 3000 0 1500 5000 ⟨1000, 5000, 5000000⟩ =
      .ok (⟨2500, 999⟩, ⟨1500, 7500, 5000000⟩) :=
  ⟨by decide, by decide, by decide⟩

/-- Claim C6, counterexample: at
`(LPsupply, Δa, Aʹ, ΔbChange, bDecay) = (5000, 1, 7, 7, 1)` the code
returns 4999 while the claim's formula yields 5000: the claim's exact
`γ = (1/7/2)·7 = 0.5`, but the code's `Δa/Aʹ` is rounded down at the
library's 20 decimal places, giving `γ = 0.499999999999999999` after the
18-dp truncation and one LP token less after the final truncation. -/
theorem calculateLiquidityTokenQtyForSingleAssetEntry_not_exact_gamma :
    calculateLiquidityTokenQtyForSingleAssetEntry 5000 1 7 7 1 = 4999 ∧
    gammaLpClaimFormula 5000 1 7 7 1 = 5000 :=
  ⟨by decide, by decide⟩

/-- Claim C6, amended: `calculateLiquidityTokenQtyForSingleAssetEntry`
returns `LPsupply · γ / (1 − γ)` rounded down to 0 decimal places, where
`γ = ((Δa / Aʹ) · ΔbChange / bDecay) / 2` rounded down to 18 decimal
places — with every division carried at the library's 20-decimal-place
half-up precision, and the halving applied last, as in the source. -/
theorem calculateLiquidityTokenQtyForSingleAssetEntry_spec
    (lpSupply da aPrime dbChange bDecay : ℚ) :
    calculateLiquidityTokenQtyForSingleAssetEntry lpSupply da aPrime dbChange bDecay =
      gammaLpRoundedFormula lpSupply da aPrime dbChange bDecay := rfl

/-- Claim C7: `calculateLiquidityTokenFees` returns 0 whenever
`rootK ≤ rootKLast` (the computed 20-dp square roots of
`internalBase · internalQuote` and of `kLast`), and otherwise returns
`LPsupply · (rootK − rootKLast) / (rootK · 5 + rootKLast)`; at LP supply
600 with `k = 400` and `kLast = 100` this differs from the Uniswap-V2
denominator `rootK + rootKLast`. -/
theorem calculateLiquidityTokenFees_spec :
    (∀ (t : ℚ) (ib : InternalBalances),
      calculateLiquidityTokenFees t ib =
        (if bnSqrt (ib.baseTokenReserveQty * ib.quoteTokenReserveQty) ≤ bnSqrt ib.kLast
         then 0
         else
           bnDiv (t * (bnSqrt (ib.baseTokenReserveQty * ib.quoteTokenReserveQty) -
               bnSqrt ib.kLast))
             (bnSqrt (ib.baseTokenReserveQty * ib.quoteTokenReserveQty) * 5 +
               bnSqrt ib.kLast))) ∧
    calculateLiquidityTokenFees 600 ⟨20, 20, 100⟩ ≠
      bnDiv (600 * (bnSqrt ((20 : ℚ) * 20) - bnSqrt 100))
        (bnSqrt ((20 : ℚ) * 20) + bnSqrt 100) := by
  constructor
  · intro t ib
    simp only [calculateLiquidityTokenFees]
    rcases le_or_lt (bnSqrt (ib.baseTokenReserveQty * ib.quoteTokenReserveQty))
        (bnSqrt ib.kLast) with h | h
    · rw [if_neg (not_lt.2 h), if_pos h]
    · rw [if_pos h, if_neg (not_le.2 h)]
  · decide

/-- Claim C2: whenever `calculateBaseTokenQty` returns normally, the
returned output is the one computed by `calculateQtyToReturnAfterFees`
against the rescaled curve — input reserve `externalBase / Ω` with
`Ω = internalBase / internalQuote`, output reserve `externalBase` — when
the external base reserve is strictly below the internal one (quote
decay), and against the unmodified internal quote and base reserves in
every other case. -/
theorem calculateBaseTokenQty_decay_aware
    (q m ext f : ℚ) (ib : InternalBalances) (v : ℚ) (ib2 : InternalBalances)
    (h : calculateBaseTokenQty q m ext f ib = .ok (v, ib2)) :
    v = (if ext < ib.baseTokenReserveQty then
          calculateQtyToReturnAfterFees q
            (bnDiv ext (bnDiv ib.baseTokenReserveQty ib.quoteTokenReserveQty)) ext f
        else
          calculateQtyToReturnAfterFees q ib.quoteTokenReserveQty
            ib.baseTokenReserveQty f) := by
  simp only [calculateBaseTokenQty] at h
  split_ifs at h with h1 h2 h3 h4
  · simp only [Except.ok.injEq, Prod.mk.injEq] at h
    rw [if_pos h2]
    exact h.1.symm
  · simp only [Except.ok.injEq, Prod.mk.injEq] at h
    rw [if_neg h2]
    exact h.1.symm

theorem calculateBaseTokenQty_decay_aware_witness :
    calculateBaseTokenQty 100 0 10000 30 ⟨10000, 50000, 0⟩ =
      .ok (19, ⟨9981, 50100, 0⟩) ∧
    (19 : ℚ) = (if (10000 : ℚ) < (⟨10000, 50000, 0⟩ : InternalBalances).baseTokenReserveQty then
        calculateQtyToReturnAfterFees 100
          (bnDiv 10000 (bnDiv (⟨10000, 50000, 0⟩ : InternalBalances).baseTokenReserveQty
            (⟨10000, 50000, 0⟩ : InternalBalances).quoteTokenReserveQty)) 10000 30
      else
        calculateQtyToReturnAfterFees 100
          (⟨10000, 50000, 0⟩ : InternalBalances).quoteTokenReserveQty
          (⟨10000, 50000, 0⟩ : InternalBalances).baseTokenReserveQty 30) :=
  ⟨by decide,
    calculateBaseTokenQty_decay_aware 100 0 10000 30 ⟨10000, 50000, 0⟩ 19
      ⟨9981, 50100, 0⟩ (by decide)⟩

/-- Claim C5: `calculateAddBaseTokenLiquidityQuantities` raises
`INSUFFICIENT_DECAY` if and only if `baseTokenQtyMin ≥ maxBase` with
`maxBase = internalBase − externalBase`; otherwise it takes
`base = min(baseTokenQtyDesired, maxBase)`, raises
`INSUFFICIENT_CHANGE_IN_DECAY` when `base · (internalQuote/internalBase)`
(the computed ratio) is not positive, raises `NO_QUOTE_DECAY` when
`maxBase · (internalQuote/internalBase)` is not positive, and otherwise
returns that base quantity with the LP issued by the gamma formula. -/
theorem calculateAddBaseTokenLiquidityQuantities_spec
    (d m ext t : ℚ) (ib : InternalBalances) :
    calculateAddBaseTokenLiquidityQuantities d m ext t ib =
      (if ib.baseTokenReserveQty - ext ≤ m then .error .insufficientDecay
       else if min d (ib.baseTokenReserveQty - ext) *
           bnDiv ib.quoteTokenReserveQty ib.baseTokenReserveQty ≤ 0 then
         .error .insufficientChangeInDecay
       else if (ib.baseTokenReserveQty - ext) *
           bnDiv ib.quoteTokenReserveQty ib.baseTokenReserveQty ≤ 0 then
         .error .noQuoteDecay
       else
         .ok ⟨min d (ib.baseTokenReserveQty - ext),
           calculateLiquidityTokenQtyForSingleAssetEntry t
             (min d (ib.baseTokenReserveQty - ext)) ib.baseTokenReserveQty
             (min d (ib.baseTokenReserveQty - ext) *
               bnDiv ib.quoteTokenReserveQty ib.baseTokenReserveQty)
             ((ib.baseTokenReserveQty - ext) *
               bnDiv ib.quoteTokenReserveQty ib.baseTokenReserveQty)⟩) := by
  have hmin : (if ib.baseTokenReserveQty - ext < d then ib.baseTokenReserveQty - ext
      else d) = min d (ib.baseTokenReserveQty - ext) := by
    rcases le_or_lt d (ib.baseTokenReserveQty - ext) with h | h
    · rw [if_neg (not_lt.2 h), min_eq_left h]
    · rw [if_pos h, min_eq_right h.le]
  simp only [calculateAddBaseTokenLiquidityQuantities, hmin]

/-- Claim C10, counterexample: `calculateBaseTokenQty` does not leave the
caller's `internalBalances` unchanged — at a concrete swap the record
passed in as `(10000, 50000, 0)` holds `(9981, 50100, 0)` after the call
(the function assigns to its fields through the shared reference returned
by `internalBalancesBNConverter`). -/
theorem calculateBaseTokenQty_mutates_internalBalances :
    calculateBaseTokenQty 100 0 10000 30 ⟨10000, 50000, 0⟩ =
      .ok (19, ⟨9981, 50100, 0⟩) ∧
    (⟨9981, 50100, 0⟩ : InternalBalances) ≠ ⟨10000, 50000, 0⟩ :=
  ⟨by decide, by decide⟩

/-- Claim C10, amended: the swap functions update the caller's
`internalBalances` record in place rather than leaving it unchanged:
on a normal return `calculateBaseTokenQty` leaves
`baseTokenReserveQty` decreased by the output and `quoteTokenReserveQty`
increased by the input, and `calculateQuoteTokenQty` the mirror image;
`kLast` is preserved by both.  Results are communicated through the
return value and through these in-place updates (the add-liquidity
routines update the record in their decay, pair and initial branches in
the same way). -/
theorem swap_updates_internalBalances :
    (∀ (q m ext f : ℚ) (ib : InternalBalances) (v : ℚ) (ib2 : InternalBalances),
      calculateBaseTokenQty q m ext f ib = .ok (v, ib2) →
        ib2 = ⟨ib.baseTokenReserveQty - v, ib.quoteTokenReserveQty + q, ib.kLast⟩) ∧
    (∀ (b m f : ℚ) (ib : InternalBalances) (v : ℚ) (ib2 : InternalBalances),
      calculateQuoteTokenQty b m f ib = .ok (v, ib2) →
        ib2 = ⟨ib.baseTokenReserveQty + b, ib.quoteTokenReserveQty - v, ib.kLast⟩) := by
  constructor
  · intro q m ext f ib v ib2 h
    simp only [calculateBaseTokenQty] at h
    split_ifs at h with h1 h2 h3 h4
    · simp only [Except.ok.injEq, Prod.mk.injEq] at h
      rw [← h.2, ← h.1]
    · simp only [Except.ok.injEq, Prod.mk.injEq] at h
      rw [← h.2, ← h.1]
  · intro b m f ib v ib2 h
    simp only [calculateQuoteTokenQty] at h
    split_ifs at h with h1 h2
    simp only [Except.ok.injEq, Prod.mk.injEq] at h
    rw [← h.2, ← h.1]

theorem swap_updates_internalBalances_witness :
    ((⟨9981, 50100, 0⟩ : InternalBalances) =
      ⟨(⟨10000, 50000, 0⟩ : InternalBalances).baseTokenReserveQty - 19,
       (⟨10000, 50000, 0⟩ : InternalBalances).quoteTokenReserveQty + 100,
       (⟨10000, 50000, 0⟩ : InternalBalances).kLast⟩) ∧
    ((⟨10100, 49507, 0⟩ : InternalBalances) =
      ⟨(⟨10000, 50000, 0⟩ : InternalBalances).baseTokenReserveQty + 100,
       (⟨10000, 50000, 0⟩ : InternalBalances).quoteTokenReserveQty - 493,
       (⟨10000, 50000, 0⟩ : InternalBalances).kLast⟩) :=
  ⟨swap_updates_internalBalances.1 100 0 10000 30 ⟨10000, 50000, 0⟩ 19
      ⟨9981, 50100, 0⟩ (by decide),
    swap_updates_internalBalances.2 100 0 30 ⟨10000, 50000, 0⟩ 493
      ⟨10100, 49507, 0⟩ (by decide)⟩

/-- Claim C9, counterexample: with strictly positive inputs — swap 0.1
against input reserve `10⁻²³`, output reserve `3 − 10⁻²¹`, fee 0 — the
result is 3, strictly greater than the output reserve: the computed
denominator collapses to the fee-adjusted input (the tiny reserve term
truncates to zero at 18 decimal places), the exact quotient
`3 − 10⁻²¹` lies within `5·10⁻²¹` below 3, and the library's
20-decimal-place half-up division rounds it up to 3. -/
theorem calculateQtyToReturnAfterFees_exceeds_outReserve :
    calculateQtyToReturnAfterFees (1 / 10) (1 / 10 ^ 23) (3 - 1 / 10 ^ 21) 0 = 3 ∧
    ((0 : ℚ) < 1 / 10 ∧ (0 : ℚ) < 1 / 10 ^ 23 ∧ (0 : ℚ) < 3 - 1 / 10 ^ 21 ∧
      (0 : ℚ) ≤ 0 ∧ (0 : ℚ) ≤ BASIS_POINTS) ∧
    (3 - 1 / 10 ^ 21 : ℚ) < 3 :=
  ⟨by decide, ⟨by decide, by decide, by decide, by decide, by decide⟩, by decide⟩

/-- Claim C9, amended: for strictly positive swap input, input reserve and
output reserve and fee between 0 and 10000 basis points, the result of
`calculateQtyToReturnAfterFees` satisfies `0 ≤ result ≤ ⌈outReserve⌉`:
the upper bound can exceed `outReserve` itself only when `outReserve`
lies within `5·10⁻²¹` below an integer (in particular the bound
`result ≤ outReserve` of the claim holds whenever `outReserve` is an
integer, as every on-chain wei reserve is). -/
theorem calculateQtyToReturnAfterFees_bounds (a ra rb f : ℚ)
    (ha : 0 < a) (hra : 0 < ra) (hrb : 0 < rb) (hf0 : 0 ≤ f) (hf : f ≤ BASIS_POINTS) :
    0 ≤ calculateQtyToReturnAfterFees a ra rb f ∧
      calculateQtyToReturnAfterFees a ra rb f ≤ ((⌈rb⌉ : ℤ) : ℚ) := by
  have hlf0 : 0 ≤ bnDp 18 (a * (BASIS_POINTS - f)) :=
    bnDp_nonneg _ _ (mul_nonneg ha.le (by linarith))
  have hnum0 : 0 ≤ bnDp 18 (bnDp 18 (a * (BASIS_POINTS - f)) * rb) :=
    bnDp_nonneg _ _ (mul_nonneg hlf0 hrb.le)
  have hra0 : 0 ≤ bnDp 18 (ra * BASIS_POINTS) :=
    bnDp_nonneg _ _ (mul_nonneg hra.le (by norm_num [BASIS_POINTS]))
  have hden0 : 0 ≤ bnDp 18 (ra * BASIS_POINTS) + bnDp 18 (a * (BASIS_POINTS - f)) :=
    add_nonneg hra0 hlf0
  have hq0 : 0 ≤ bnDp 18 (bnDp 18 (a * (BASIS_POINTS - f)) * rb) /
      (bnDp 18 (ra * BASIS_POINTS) + bnDp 18 (a * (BASIS_POINTS - f))) :=
    div_nonneg hnum0 hden0
  have hqrb : bnDp 18 (bnDp 18 (a * (BASIS_POINTS - f)) * rb) /
      (bnDp 18 (ra * BASIS_POINTS) + bnDp 18 (a * (BASIS_POINTS - f))) ≤ rb := by
    rcases eq_or_lt_of_le hlf0 with h0 | hpos
    · rw [← h0]
      have hz : bnDp 18 ((0 : ℚ) * rb) = 0 := by rw [zero_mul, bnDp_zero_val]
      rw [hz, zero_div]
      exact hrb.le
    · have hnle : bnDp 18 (bnDp 18 (a * (BASIS_POINTS - f)) * rb) ≤
          bnDp 18 (a * (BASIS_POINTS - f)) * rb :=
        bnDp_le_self _ _ (mul_nonneg hlf0 hrb.le)
      have hlfden : bnDp 18 (a * (BASIS_POINTS - f)) ≤
          bnDp 18 (ra * BASIS_POINTS) + bnDp 18 (a * (BASIS_POINTS - f)) :=
        le_add_of_nonneg_left hra0
      calc bnDp 18 (bnDp 18 (a * (BASIS_POINTS - f)) * rb) /
            (bnDp 18 (ra * BASIS_POINTS) + bnDp 18 (a * (BASIS_POINTS - f)))
          ≤ bnDp 18 (bnDp 18 (a * (BASIS_POINTS - f)) * rb) /
            bnDp 18 (a * (BASIS_POINTS - f)) := by gcongr
        _ ≤ (bnDp 18 (a * (BASIS_POINTS - f)) * rb) /
            bnDp 18 (a * (BASIS_POINTS - f)) := by gcongr
        _ = rb := mul_div_cancel_left₀ rb hpos.ne'
  have hmain : calculateQtyToReturnAfterFees a ra rb f =
      ((⌊bnDp 18 (bnDp 18 (a * (BASIS_POINTS - f)) * rb) /
        (bnDp 18 (ra * BASIS_POINTS) + bnDp 18 (a * (BASIS_POINTS - f))) +
        5 / 10 ^ 21⌋ : ℤ) : ℚ) := by
    simp only [calculateQtyToReturnAfterFees, bnDiv]
    exact bnDp_zero_bnHalfUp _ hq0
  rw [hmain]
  constructor
  · exact_mod_cast Int.floor_nonneg.2 (by positivity)
  · have h2 : bnDp 18 (bnDp 18 (a * (BASIS_POINTS - f)) * rb) /
        (bnDp 18 (ra * BASIS_POINTS) + bnDp 18 (a * (BASIS_POINTS - f))) +
        5 / 10 ^ 21 < ((⌈rb⌉ + 1 : ℤ) : ℚ) := by
      have h3 := Int.le_ceil rb
      push_cast
      have h4 : (5 : ℚ) / 10 ^ 21 < 1 := by norm_num
      linarith
    have h1 : (⌊bnDp 18 (bnDp 18 (a * (BASIS_POINTS - f)) * rb) /
        (bnDp 18 (ra * BASIS_POINTS) + bnDp 18 (a * (BASIS_POINTS - f))) +
        5 / 10 ^ 21⌋ : ℤ) < ⌈rb⌉ + 1 := Int.floor_lt.2 h2
    exact_mod_cast Int.lt_add_one_iff.1 h1

theorem calculateQtyToReturnAfterFees_bounds_witness :
    ((0 : ℚ) < 100000 ∧ (0 : ℚ) < 10000 ∧ (0 : ℚ) < 50000 ∧
      (0 : ℚ) ≤ 30 ∧ (30 : ℚ) ≤ BASIS_POINTS) ∧
    (0 ≤ calculateQtyToReturnAfterFees 100000 10000 50000 30 ∧
      calculateQtyToReturnAfterFees 100000 10000 50000 30 ≤ ((⌈(50000 : ℚ)⌉ : ℤ) : ℚ)) :=
  ⟨⟨by decide, by decide, by decide, by decide, by decide⟩,
    calculateQtyToReturnAfterFees_bounds 100000 10000 50000 30 (by decide) (by decide)
      (by decide) (by decide) (by decide)⟩

/-- Claim C8, counterexample: a call with positive LP supply that returns
normally with the accumulated base quantity strictly below
`baseTokenQtyMin`: when decay resolution consumes the whole desired
quote quantity the residual pair entry — and with it the final
`INSUFFICIENT_BASE_QTY` / `INSUFFICIENT_QUOTE_QTY` validation — is
skipped, and the decay-only result is returned unchecked (here base 0
against `baseTokenQtyMin = 100`). -/
theorem calculateAddLiquidityQuantities_skips_min_checks :
    calculateAddLiquidityQuantities 0 2500 100 0 1500 5000 5000 ⟨1000, 5000, 5000000⟩ =
      .ok (⟨0, 2500, 999, 0⟩, ⟨1500, 7500, 5000000⟩) ∧
    (0 : ℚ) < 100 :=
  ⟨by decide, by decide⟩

/-- Claim C8, amended: the final minimum validations run only on the path
where decay resolution is followed by a residual pair entry.  On that
path the claim holds: with positive LP supply, sufficient decay present,
decay resolution succeeding with outputs still below both desired
quantities, every normal return satisfies
`baseTokenQty ≥ baseTokenQtyMin` and `quoteTokenQty ≥ quoteTokenQtyMin`
(the call raises `INSUFFICIENT_BASE_QTY` respectively
`INSUFFICIENT_QUOTE_QTY` instead of returning).  On the decay-only and
pair-only paths the minimums are not re-validated. -/
theorem calculateAddLiquidityQuantities_residual_min_checks
    (bd qd bmin qmin ext qext ts : ℚ) (ib : InternalBalances)
    (fd : PairQtys) (ibd : InternalBalances) (t : TokenQtys) (ib2 : InternalBalances)
    (hts : 0 < ts)
    (hdec : isSufficientDecayPresent ext ib = true)
    (hdo : decayResolutionOutputs bd qd ext (calculateLiquidityTokenFees ts ib + ts) ib =
      .ok (fd, ibd))
    (hq : fd.quoteTokenQty < qd) (hb : fd.baseTokenQty < bd)
    (hres : calculateAddLiquidityQuantities bd qd bmin qmin ext qext ts ib = .ok (t, ib2)) :
    bmin ≤ t.baseTokenQty ∧ qmin ≤ t.quoteTokenQty := by
  simp only [calculateAddLiquidityQuantities] at hres
  rw [if_pos hts, if_pos hdec] at hres
  simp only [hdo] at hres
  rw [if_pos ⟨hq, hb⟩] at hres
  cases hp : calculateAddTokenPairLiquidityQuantities (bd - fd.baseTokenQty)
      (qd - fd.quoteTokenQty) 0 0 (qext + fd.quoteTokenQty)
      (calculateLiquidityTokenFees ts ib + ts + fd.liquidityTokenQty) ibd with
  | error e => simp [hp] at hres
  | ok pr =>
    obtain ⟨pair, ibp⟩ := pr
    simp only [hp] at hres
    split_ifs at hres with h1 h2
    simp only [Except.ok.injEq, Prod.mk.injEq] at hres
    rw [← hres.1]
    exact ⟨not_lt.1 h1, not_lt.1 h2⟩

theorem calculateAddLiquidityQuantities_residual_min_checks_witness :
    calculateAddLiquidityQuantities 10 3000 0 0 1500 5000 5000 ⟨1000, 5000, 5000000⟩ =
      .ok (⟨10, 2550, 1038993333333333333333 / 10 ^ 18, 0⟩, ⟨1510, 7550, 5000000⟩) ∧
    ((0 : ℚ) ≤ (⟨10, 2550, 1038993333333333333333 / 10 ^ 18, 0⟩ : TokenQtys).baseTokenQty ∧
      (0 : ℚ) ≤ (⟨10, 2550, 1038993333333333333333 / 10 ^ 18, 0⟩ : TokenQtys).quoteTokenQty) :=
  ⟨by decide,
    calculateAddLiquidityQuantities_residual_min_checks 10 3000 0 0 1500 5000 5000
      ⟨1000, 5000, 5000000⟩ ⟨0, 2500, 999⟩ ⟨1500, 7500, 5000000⟩
      ⟨10, 2550, 1038993333333333333333 / 10 ^ 18, 0⟩ ⟨1510, 7550, 5000000⟩
      (by decide) (by decide) (by decide) (by decide) (by decide) (by decide)⟩
